import Mathlib

/-!
Verification of the weather-alert pipeline (`weather_service.py`,
`alert_system.py`): a shallow embedding of the forecast analyzer, the
severity filter, the message formatter and the notification dispatcher,
with theorems settling the specification claims.

Numeric samples (temperatures, wind speeds, rain volumes) are embedded as
rationals; dictionary lookups that may fail in the source (a missing key
raises KeyError) are embedded as `Option` fields, and the analyzer returns
`Except String _`, the error case standing for a raised KeyError.
-/

namespace WeatherAlert

/-- Embeds the `WeatherCondition` dataclass of `weather_service.py`:
a typed, severity-labelled condition record. -/
structure WeatherCondition where
  type : String
  severity : String
  description : String
  value : ℚ
  unit : String
  deriving DecidableEq, Repr

/-- One element of an entry's `weather` list: the source reads
`weather["main"]` and `weather["description"]` by unguarded indexing,
so both fields are `Option` (a `none` stands for a missing key). -/
structure WeatherTag where
  main : Option String
  description : Option String
  deriving DecidableEq, Repr

/-- One forecast entry. `main_temp` embeds `entry["main"]["temp"]` and
`wind_speed` embeds `entry["wind"]["speed"]`, both read by unguarded
indexing in the source (`none` stands for a missing key, which raises).
`rain_3h` embeds `entry["rain"]["3h"]`, which the source reads only after
guarding with `"rain" in entry and "3h" in entry["rain"]`, so a `none`
merely skips the rule. `weather` embeds `entry.get("weather", [])`. -/
structure ForecastEntry where
  main_temp : Option ℚ
  wind_speed : Option ℚ
  rain_3h : Option ℚ
  weather : List WeatherTag
  deriving DecidableEq, Repr

/-- The raw forecast payload: `list` embeds the `"list"` key of the
payload dictionary, `none` standing for a payload without that key. An
absent payload altogether is embedded as `none : Option Forecast`. -/
structure Forecast where
  list : Option (List ForecastEntry)
  deriving DecidableEq, Repr

/-- The threshold configuration built in `WeatherService.__init__`
(`self.thresholds`), flattened from the nested dictionary. -/
structure Thresholds where
  temperature_extreme_high : ℚ
  temperature_extreme_low : ℚ
  temperature_warning_high : ℚ
  temperature_warning_low : ℚ
  wind_severe : ℚ
  wind_warning : ℚ
  heavy_rain_3h : ℚ
  heavy_rain_6h : ℚ
  snow_3h : ℚ
  snow_6h : ℚ
  severe_conditions : List String
  deriving Repr

/-- The concrete threshold values set in `WeatherService.__init__`. -/
def defaultThresholds : Thresholds where
  temperature_extreme_high := 40
  temperature_extreme_low := -15
  temperature_warning_high := 35
  temperature_warning_low := -10
  wind_severe := 75
  wind_warning := 50
  heavy_rain_3h := 50
  heavy_rain_6h := 80
  snow_3h := 20
  snow_6h := 40
  severe_conditions :=
    ["thunderstorm", "hurricane", "tornado", "cyclone", "typhoon", "blizzard"]

/-- The temperature block of `analyze_forecast`: `if temp > extreme_high`
append Extreme Heat, `elif temp < extreme_low` append Extreme Cold. -/
def tempConditions (th : Thresholds) (temp : ℚ) : List WeatherCondition :=
  if temp > th.temperature_extreme_high then
    [⟨"temperature", "extreme", "Extreme Heat", temp, "°C"⟩]
  else if temp < th.temperature_extreme_low then
    [⟨"temperature", "extreme", "Extreme Cold", temp, "°C"⟩]
  else []

/-- The wind block of `analyze_forecast`: the sample is converted by
`* 3.6` from m/s to km/h and compared against the severe threshold. -/
def windConditions (th : Thresholds) (speed : ℚ) : List WeatherCondition :=
  let wind_speed := speed * 3.6
  if wind_speed > th.wind_severe then
    [⟨"wind", "severe", "High Winds", wind_speed, "km/h"⟩]
  else []

/-- The precipitation block of `analyze_forecast`: fires only when the
guarded `entry["rain"]["3h"]` sample exists and exceeds the 3h
heavy-rain threshold; note the severity string is `"heavy"`. -/
def rainConditions (th : Thresholds) (rain_3h : Option ℚ) : List WeatherCondition :=
  match rain_3h with
  | none => []
  | some volume =>
    if volume > th.heavy_rain_3h then
      [⟨"precipitation", "heavy", "Heavy Rain", volume, "mm"⟩]
    else []

/-- `needle` occurs at the head of `hay` (character-list version of a
string-prefix test, used to build the substring test below). -/
def leadsWith : List Char → List Char → Bool
  | [], _ => true
  | _ :: _, [] => false
  | a :: as, b :: bs => a == b && leadsWith as bs

/-- The Python substring test `needle in hay`, on character lists:
`needle` occurs contiguously somewhere in `hay`. -/
def occursIn (needle hay : List Char) : Bool :=
  match hay with
  | [] => needle.isEmpty
  | _ :: t => leadsWith needle hay || occursIn needle t

/-- `any(condition in weather["main"].lower() for condition in
self.thresholds["severe_conditions"])`: a case-lowered substring test of
each configured keyword against the tag's category name. -/
def matchesSevereCondition (th : Thresholds) (mainName : String) : Bool :=
  th.severe_conditions.any fun c =>
    occursIn c.toList (mainName.toList.map Char.toLower)

/-- Processing of one weather tag in `analyze_forecast`: reading
`weather["main"]` (and, when the keyword test passes, `weather["description"]`)
raises KeyError when the key is missing. -/
def tagConditions (th : Thresholds) (tag : WeatherTag) :
    Except String (List WeatherCondition) :=
  match tag.main with
  | none => .error "KeyError: main"
  | some mainName =>
    if matchesSevereCondition th mainName then
      match tag.description with
      | none => .error "KeyError: description"
      | some d => .ok [⟨"weather", "severe", "Severe Weather: " ++ d, 0, ""⟩]
    else .ok []

/-- The `for weather in entry.get("weather", [])` loop: tags processed in
order, a raised KeyError aborting the whole analysis. -/
def tagsConditions (th : Thresholds) : List WeatherTag → Except String (List WeatherCondition)
  | [] => .ok []
  | tag :: rest =>
    match tagConditions th tag with
    | .error e => .error e
    | .ok cs =>
      match tagsConditions th rest with
      | .error e => .error e
      | .ok csRest => .ok (cs ++ csRest)

/-- The body of the `for entry in forecast["list"]` loop for one entry:
temperature, wind, precipitation, then weather tags, appended in that
order; the unguarded reads of `entry["main"]["temp"]` and
`entry["wind"]["speed"]` raise KeyError when missing. -/
def analyzeEntry (th : Thresholds) (e : ForecastEntry) :
    Except String (List WeatherCondition) :=
  match e.main_temp with
  | none => .error "KeyError: temp"
  | some temp =>
    match e.wind_speed with
    | none => .error "KeyError: speed"
    | some speed =>
      match tagsConditions th e.weather with
      | .error err => .error err
      | .ok tagConds =>
        .ok (tempConditions th temp ++ windConditions th speed
              ++ rainConditions th e.rain_3h ++ tagConds)

/-- The full entry loop of `analyze_forecast`, preserving entry order. -/
def analyzeEntries (th : Thresholds) : List ForecastEntry → Except String (List WeatherCondition)
  | [] => .ok []
  | e :: es =>
    match analyzeEntry th e with
    | .error err => .error err
    | .ok cs =>
      match analyzeEntries th es with
      | .error err => .error err
      | .ok csRest => .ok (cs ++ csRest)

/-- `WeatherService.analyze_forecast`: the guard
`if not forecast or "list" not in forecast: return []` is the two outer
`none` cases, then the entry loop runs. -/
def analyze_forecast (th : Thresholds) (forecast : Option Forecast) :
    Except String (List WeatherCondition) :=
  match forecast with
  | none => .ok []
  | some fc =>
    match fc.list with
    | none => .ok []
    | some entries => analyzeEntries th entries

/-- The severity hierarchy dictionary `self.severity_levels` of
`AlertSystem.__init__`, as an association list. -/
def severity_levels : List (String × Nat) :=
  [("info", 0), ("warning", 1), ("severe", 2), ("extreme", 3)]

/-- `self.severity_levels.get(s, 0)`: the rank of a severity string,
defaulting to 0 for a string absent from the dictionary. -/
def severityRank (s : String) : Nat :=
  (severity_levels.lookup s).getD 0

/-- `AlertSystem.filter_conditions`: the list comprehension retaining the
conditions whose severity rank reaches the configured threshold's rank. -/
def filter_conditions (threshold : String) (conditions : List WeatherCondition) :
    List WeatherCondition :=
  conditions.filter fun c => severityRank threshold ≤ severityRank c.severity

/-- Python `str.capitalize()`: first character upper-cased, all remaining
characters lower-cased (ASCII case mapping, which covers every severity
string the system uses). -/
def pythonCapitalize (s : String) : String :=
  match s.toList with
  | [] => ""
  | c :: rest => String.mk (c.toUpper :: rest.map Char.toLower)

/-- Rendering of `condition.value` inside the f-strings of
`_format_condition_message`. The analyzer's samples arrive as JSON
numbers; for integral values Python renders the bare integer digits,
which this models exactly; non-integral rationals are rendered through
`Rat`'s own printer (no claim depends on that case). -/
def formatValue (q : ℚ) : String :=
  if q.den = 1 then toString q.num else toString q

/-- The first element pushed onto `message_parts`: the header part
(glyph characters exactly as stored in the source file, then
`Weather Alert:` and a newline). -/
def headerPart : String := "\u00E2\u0161\u00A0\u00EF\u00B8 Weather Alert:\n"

/-- Glyph prefix of a temperature line, as stored in the source. -/
def glyphTemperature : String := "\u00F0\u0178\u0152\u00A1\u00EF\u00B8 "

/-- Glyph prefix of a wind line, as stored in the source. -/
def glyphWind : String := "\u00F0\u0178\u2019\u00A8 "

/-- Glyph prefix of a precipitation line, as stored in the source. -/
def glyphPrecipitation : String := "\u00F0\u0178\u0152\u00A7\u00EF\u00B8 "

/-- Glyph prefix of the catch-all (severe-weather) line, as stored in
the source. -/
def glyphOther : String := "\u00E2\u0161\u00A1 "

/-- The per-condition part appended to `message_parts` inside the loop of
`_format_condition_message`: glyph chosen by `condition.type`, then the
capitalized severity, the description, and (for the three typed kinds)
the value and unit. -/
def conditionLine (c : WeatherCondition) : String :=
  if c.type = "temperature" then
    glyphTemperature ++ pythonCapitalize c.severity ++ " " ++ c.description
      ++ ": " ++ formatValue c.value ++ c.unit
  else if c.type = "wind" then
    glyphWind ++ pythonCapitalize c.severity ++ " " ++ c.description
      ++ ": " ++ formatValue c.value ++ c.unit
  else if c.type = "precipitation" then
    glyphPrecipitation ++ pythonCapitalize c.severity ++ " " ++ c.description
      ++ ": " ++ formatValue c.value ++ c.unit
  else
    glyphOther ++ pythonCapitalize c.severity ++ " " ++ c.description

/-- `AlertSystem._format_condition_message`: the sentinel for an empty
list, otherwise the header part and the per-condition parts joined with
newlines. -/
def format_condition_message (conditions : List WeatherCondition) : String :=
  if conditions.isEmpty then
    "No significant weather conditions detected."
  else
    String.intercalate "\n" (headerPart :: conditions.map conditionLine)

/-- The outcome of the single HTTPS exchange in
`AlertSystem.send_notification`: either a response with a status code, or
a raised transport exception. -/
inductive NetResponse where
  | status (code : Nat)
  | exn
  deriving DecidableEq, Repr

/-- One form-encoded POST as issued by `send_notification`: the message
body and the title field. -/
structure Post where
  message : String
  title : String
  deriving DecidableEq, Repr

/-- `AlertSystem.send_notification`, with the network modelled by the
`resp` oracle. Returns the boolean result together with the list of
POSTs issued (so that making no network call is observable). The title
defaults through Python's `title or "Weather Alert System"`, which also
replaces an empty string. -/
def send_notification (threshold : String) (resp : NetResponse)
    (conditions : List WeatherCondition) (title : Option String) :
    Bool × List Post :=
  let filtered := filter_conditions threshold conditions
  if filtered.isEmpty then
    (false, [])
  else
    let message := format_condition_message filtered
    let t := match title with
      | some s => if s = "" then "Weather Alert System" else s
      | none => "Weather Alert System"
    match resp with
    | .status code => (decide (code = 200), [⟨message, t⟩])
    | .exn => (false, [⟨message, t⟩])

/-- Decidable equality of analyzer results, so that concrete runs can be
checked by evaluation. -/
instance {ε α : Type} [DecidableEq ε] [DecidableEq α] : DecidableEq (Except ε α) :=
  fun a b =>
    match a, b with
    | .error x, .error y => decidable_of_iff (x = y) (by simp)
    | .error _, .ok _ => isFalse (by simp)
    | .ok _, .error _ => isFalse (by simp)
    | .ok x, .ok y => decidable_of_iff (x = y) (by simp)

/-- A forecast entry on which the source's unguarded dictionary reads all
succeed: the temperature and wind samples are present, and every weather
tag has its category name and description. -/
def wellFormedEntry (e : ForecastEntry) : Prop :=
  e.main_temp.isSome ∧ e.wind_speed.isSome ∧
    ∀ tag ∈ e.weather, tag.main.isSome ∧ tag.description.isSome

lemma mem_tempConditions {th : Thresholds} {t : ℚ} {c : WeatherCondition}
    (hc : c ∈ tempConditions th t) :
    c.type = "temperature" ∧ c.severity = "extreme" := by
  unfold tempConditions at hc
  split at hc
  · simp only [List.mem_singleton] at hc; subst hc; exact ⟨rfl, rfl⟩
  · split at hc
    · simp only [List.mem_singleton] at hc; subst hc; exact ⟨rfl, rfl⟩
    · simp at hc

lemma mem_windConditions {th : Thresholds} {s : ℚ} {c : WeatherCondition}
    (hc : c ∈ windConditions th s) :
    c.type = "wind" ∧ c.severity = "severe" := by
  simp only [windConditions] at hc
  split at hc
  · simp only [List.mem_singleton] at hc; subst hc; exact ⟨rfl, rfl⟩
  · simp at hc

lemma mem_rainConditions {th : Thresholds} {r : Option ℚ} {c : WeatherCondition}
    (hc : c ∈ rainConditions th r) :
    c.type = "precipitation" ∧ c.severity = "heavy" := by
  cases r with
  | none => simp [rainConditions] at hc
  | some volume =>
    simp only [rainConditions] at hc
    split at hc
    · simp only [List.mem_singleton] at hc; subst hc; exact ⟨rfl, rfl⟩
    · simp at hc

lemma mem_tagConditions {th : Thresholds} {tag : WeatherTag}
    {cs : List WeatherCondition} {c : WeatherCondition}
    (h : tagConditions th tag = Except.ok cs) (hc : c ∈ cs) :
    c.type = "weather" ∧ c.severity = "severe" := by
  obtain ⟨tmain, tdesc⟩ := tag
  cases tmain with
  | none => simp [tagConditions] at h
  | some m =>
    by_cases hmatch : matchesSevereCondition th m = true
    · cases tdesc with
      | none => simp [tagConditions, hmatch] at h
      | some d =>
        simp only [tagConditions, hmatch, if_true, Except.ok.injEq] at h
        subst h
        simp only [List.mem_singleton] at hc
        subst hc; exact ⟨rfl, rfl⟩
    · simp [tagConditions, hmatch] at h
      subst h; simp at hc

lemma mem_tagsConditions {th : Thresholds} {tags : List WeatherTag}
    {conds : List WeatherCondition} {c : WeatherCondition}
    (h : tagsConditions th tags = Except.ok conds) (hc : c ∈ conds) :
    c.type = "weather" ∧ c.severity = "severe" := by
  induction tags generalizing conds with
  | nil =>
    simp only [tagsConditions, Except.ok.injEq] at h
    subst h; simp at hc
  | cons tag rest ih =>
    unfold tagsConditions at h
    cases htag : tagConditions th tag with
    | error e => rw [htag] at h; simp at h
    | ok cs =>
      rw [htag] at h
      cases hrest : tagsConditions th rest with
      | error e => rw [hrest] at h; simp at h
      | ok csRest =>
        rw [hrest] at h
        simp only [Except.ok.injEq] at h
        subst h
        rcases List.mem_append.mp hc with hcl | hcr
        · exact mem_tagConditions htag hcl
        · exact ih hrest hcr

lemma mem_analyzeEntry {th : Thresholds} {e : ForecastEntry}
    {conds : List WeatherCondition} {c : WeatherCondition}
    (h : analyzeEntry th e = Except.ok conds) (hc : c ∈ conds) :
    (c.type = "temperature" ∧ c.severity = "extreme")
      ∨ (c.type = "wind" ∧ c.severity = "severe")
      ∨ (c.type = "precipitation" ∧ c.severity = "heavy")
      ∨ (c.type = "weather" ∧ c.severity = "severe") := by
  unfold analyzeEntry at h
  cases ht : e.main_temp with
  | none => rw [ht] at h; simp at h
  | some temp =>
    rw [ht] at h
    cases hw : e.wind_speed with
    | none => rw [hw] at h; simp at h
    | some speed =>
      rw [hw] at h
      cases htags : tagsConditions th e.weather with
      | error err => rw [htags] at h; simp at h
      | ok tagConds =>
        rw [htags] at h
        simp only [Except.ok.injEq] at h
        subst h
        rcases List.mem_append.mp hc with h3 | h4
        · rcases List.mem_append.mp h3 with h2 | hrain
          · rcases List.mem_append.mp h2 with htmp | hwind
            · exact Or.inl (mem_tempConditions htmp)
            · exact Or.inr (Or.inl (mem_windConditions hwind))
          · exact Or.inr (Or.inr (Or.inl (mem_rainConditions hrain)))
        · exact Or.inr (Or.inr (Or.inr (mem_tagsConditions htags h4)))

lemma mem_analyzeEntries {th : Thresholds} {es : List ForecastEntry}
    {conds : List WeatherCondition} {c : WeatherCondition}
    (h : analyzeEntries th es = Except.ok conds) (hc : c ∈ conds) :
    (c.type = "temperature" ∧ c.severity = "extreme")
      ∨ (c.type = "wind" ∧ c.severity = "severe")
      ∨ (c.type = "precipitation" ∧ c.severity = "heavy")
      ∨ (c.type = "weather" ∧ c.severity = "severe") := by
  induction es generalizing conds with
  | nil =>
    simp only [analyzeEntries, Except.ok.injEq] at h
    subst h; simp at hc
  | cons e es ih =>
    unfold analyzeEntries at h
    cases he : analyzeEntry th e with
    | error err => rw [he] at h; simp at h
    | ok cs =>
      rw [he] at h
      cases hes : analyzeEntries th es with
      | error err => rw [hes] at h; simp at h
      | ok csRest =>
        rw [hes] at h
        simp only [Except.ok.injEq] at h
        subst h
        rcases List.mem_append.mp hc with hcl | hcr
        · exact mem_analyzeEntry he hcl
        · exact ih hes hcr

lemma mem_analyze_forecast {th : Thresholds} {fc : Option Forecast}
    {conds : List WeatherCondition} {c : WeatherCondition}
    (h : analyze_forecast th fc = Except.ok conds) (hc : c ∈ conds) :
    (c.type = "temperature" ∧ c.severity = "extreme")
      ∨ (c.type = "wind" ∧ c.severity = "severe")
      ∨ (c.type = "precipitation" ∧ c.severity = "heavy")
      ∨ (c.type = "weather" ∧ c.severity = "severe") := by
  cases fc with
  | none =>
    simp only [analyze_forecast, Except.ok.injEq] at h
    subst h; simp at hc
  | some f =>
    obtain ⟨l⟩ := f
    cases l with
    | none =>
      simp only [analyze_forecast, Except.ok.injEq] at h
      subst h; simp at hc
    | some entries =>
      simp only [analyze_forecast] at h
      exact mem_analyzeEntries h hc

lemma tagsConditions_ok {th : Thresholds} {tags : List WeatherTag}
    (h : ∀ tag ∈ tags, tag.main.isSome ∧ tag.description.isSome) :
    ∃ cs, tagsConditions th tags = Except.ok cs := by
  induction tags with
  | nil => exact ⟨[], rfl⟩
  | cons tag rest ih =>
    obtain ⟨hm, hd⟩ := h tag (List.mem_cons_self _ _)
    obtain ⟨csRest, hrest⟩ := ih fun t ht => h t (List.mem_cons_of_mem _ ht)
    obtain ⟨tmain, tdesc⟩ := tag
    simp only at hm hd
    obtain ⟨m, rfl⟩ := Option.isSome_iff_exists.mp hm
    obtain ⟨d, rfl⟩ := Option.isSome_iff_exists.mp hd
    by_cases hmatch : matchesSevereCondition th m = true
    · exact ⟨⟨"weather", "severe", "Severe Weather: " ++ d, 0, ""⟩ :: csRest,
        by simp [tagsConditions, tagConditions, hmatch, hrest]⟩
    · exact ⟨csRest, by simp [tagsConditions, tagConditions, hmatch, hrest]⟩

lemma analyzeEntry_ok {th : Thresholds} {e : ForecastEntry}
    (h : wellFormedEntry e) : ∃ cs, analyzeEntry th e = Except.ok cs := by
  obtain ⟨hm, hw, htags⟩ := h
  obtain ⟨temp, hm'⟩ := Option.isSome_iff_exists.mp hm
  obtain ⟨speed, hw'⟩ := Option.isSome_iff_exists.mp hw
  obtain ⟨tcs, htcs⟩ := @tagsConditions_ok th _ htags
  unfold analyzeEntry
  rw [hm', hw', htcs]
  exact ⟨_, rfl⟩

lemma analyzeEntries_ok {th : Thresholds} {es : List ForecastEntry}
    (h : ∀ e ∈ es, wellFormedEntry e) :
    ∃ cs, analyzeEntries th es = Except.ok cs := by
  induction es with
  | nil => exact ⟨[], rfl⟩
  | cons e es ih =>
    obtain ⟨cs, hcs⟩ := @analyzeEntry_ok th _ (h e (List.mem_cons_self _ _))
    obtain ⟨csRest, hrest⟩ := ih fun x hx => h x (List.mem_cons_of_mem _ hx)
    unfold analyzeEntries
    rw [hcs, hrest]
    exact ⟨_, rfl⟩

/-- C1 (counterexample): the claim that every condition produced by
`analyze_forecast` has a severity among the four enumerated levels fails:
a forecast entry with a 3-hour rain volume of 60 mm yields a precipitation
condition whose severity is the string "heavy", which is not one of
info, warning, severe, extreme. -/
theorem analyze_severity_enumeration_counterexample :
    analyze_forecast defaultThresholds
        (some ⟨some [⟨some 25, some 5, some 60, []⟩]⟩)
      = Except.ok [⟨"precipitation", "heavy", "Heavy Rain", 60, "mm"⟩]
    ∧ ("heavy" : String) ∉ (["info", "warning", "severe", "extreme"] : List String) := by
  constructor
  · norm_num [analyze_forecast, analyzeEntries, analyzeEntry, tempConditions,
      windConditions, rainConditions, tagsConditions, defaultThresholds]
  · decide

/-- C1 (amended): every condition record produced by a successful run of
`analyze_forecast` has a severity among the four enumerated levels or the
string "heavy" (emitted by the precipitation rule, absent from the
ranking table and hence ranked 0). -/
theorem analyze_severity_enumeration :
    ∀ (th : Thresholds) (fc : Option Forecast) (conds : List WeatherCondition),
      analyze_forecast th fc = Except.ok conds →
      ∀ c ∈ conds,
        c.severity ∈ (["info", "warning", "severe", "extreme", "heavy"] : List String) := by
  intro th fc conds hok c hc
  rcases mem_analyze_forecast hok hc with ⟨_, h⟩ | ⟨_, h⟩ | ⟨_, h⟩ | ⟨_, h⟩ <;> simp [h]

/-- C1 (witness): the amended theorem applied to the heavy-rain run. -/
theorem analyze_severity_enumeration_witness :
    (⟨"precipitation", "heavy", "Heavy Rain", 60, "mm"⟩ : WeatherCondition).severity
      ∈ (["info", "warning", "severe", "extreme", "heavy"] : List String) :=
  analyze_severity_enumeration defaultThresholds
    (some ⟨some [⟨some 25, some 5, some 60, []⟩]⟩)
    [⟨"precipitation", "heavy", "Heavy Rain", 60, "mm"⟩]
    (by norm_num [analyze_forecast, analyzeEntries, analyzeEntry, tempConditions,
      windConditions, rainConditions, tagsConditions, defaultThresholds])
    _ (by simp)

/-- C2: `filter_conditions` retains a condition iff the rank of its
severity (0 for strings absent from the ranking table) reaches the rank
of the configured threshold, preserves the input order (the output is a
sublist of the input), and any string missing from the table ranks 0. -/
theorem filter_conditions_spec :
    ∀ (threshold : String) (conds : List WeatherCondition) (c : WeatherCondition),
      (c ∈ filter_conditions threshold conds ↔
        c ∈ conds ∧ severityRank threshold ≤ severityRank c.severity)
      ∧ (filter_conditions threshold conds).Sublist conds
      ∧ (∀ s : String, severity_levels.lookup s = none → severityRank s = 0) := by
  intro threshold conds c
  refine ⟨?_, List.filter_sublist _, ?_⟩
  · simp [filter_conditions, List.mem_filter]
  · intro s hs
    simp [severityRank, hs]

/-- C2 (witness): the rank-0 default applied to the unranked string
"heavy". -/
theorem filter_conditions_spec_witness : severityRank "heavy" = 0 :=
  (filter_conditions_spec "warning" [] ⟨"", "", "", 0, ""⟩).2.2 "heavy" (by decide)

/-- C3: with a notification threshold ranking at least 1 (the default
"warning" included), no precipitation condition produced by
`analyze_forecast` survives `filter_conditions`: the precipitation rule
emits severity "heavy", which ranks 0. -/
theorem precipitation_never_notified :
    ∀ (th : Thresholds) (fc : Option Forecast) (threshold : String)
      (conds : List WeatherCondition),
      1 ≤ severityRank threshold →
      analyze_forecast th fc = Except.ok conds →
      ∀ c ∈ filter_conditions threshold conds, c.type ≠ "precipitation" := by
  intro th fc threshold conds hth hok c hc hty
  obtain ⟨hcin, hp⟩ := List.mem_filter.mp hc
  have hrank : severityRank threshold ≤ severityRank c.severity := of_decide_eq_true hp
  rcases mem_analyze_forecast hok hcin with ⟨h1, _⟩ | ⟨h1, _⟩ | ⟨_, h2⟩ | ⟨h1, _⟩
  · rw [h1] at hty; exact absurd hty (by decide)
  · rw [h1] at hty; exact absurd hty (by decide)
  · rw [h2] at hrank
    have hz : severityRank "heavy" = 0 := by decide
    rw [hz] at hrank
    omega
  · rw [h1] at hty; exact absurd hty (by decide)

/-- C3 (witness): the theorem applied to a run producing a wind and a
rain condition under the default "warning" threshold. -/
theorem precipitation_never_notified_witness :
    (⟨"wind", "severe", "High Winds", 90, "km/h"⟩ : WeatherCondition).type
      ≠ "precipitation" :=
  precipitation_never_notified defaultThresholds
    (some ⟨some [⟨some 25, some 25, some 60, []⟩]⟩) "warning"
    [⟨"wind", "severe", "High Winds", 90, "km/h"⟩,
      ⟨"precipitation", "heavy", "Heavy Rain", 60, "mm"⟩]
    (by decide)
    (by norm_num [analyze_forecast, analyzeEntries, analyzeEntry, tempConditions,
      windConditions, rainConditions, tagsConditions, defaultThresholds])
    ⟨"wind", "severe", "High Winds", 90, "km/h"⟩ (by decide)

/-- C4: `send_notification` first filters; an empty filtered list yields
false with no POST issued; otherwise exactly one POST is issued and the
result is true iff the service responds with HTTP 200 (any other status
or a transport exception yields false). -/
theorem send_notification_spec :
    ∀ (threshold : String) (resp : NetResponse) (conds : List WeatherCondition)
      (title : Option String),
      (filter_conditions threshold conds = [] →
        send_notification threshold resp conds title = (false, []))
      ∧ (filter_conditions threshold conds ≠ [] →
        (send_notification threshold resp conds title).2.length = 1
          ∧ ((send_notification threshold resp conds title).1 = true ↔
              resp = NetResponse.status 200)) := by
  intro threshold resp conds title
  constructor
  · intro hempty
    simp [send_notification, hempty]
  · intro hne
    have hne' : (filter_conditions threshold conds).isEmpty = false := by
      simpa [List.isEmpty_iff] using hne
    cases resp with
    | status code =>
      refine ⟨by simp [send_notification, hne'], ?_⟩
      simp [send_notification, hne']
    | exn =>
      refine ⟨by simp [send_notification, hne'], ?_⟩
      simp [send_notification, hne']

/-- C4 (witness): the theorem applied to one warning-level condition and
a 200 response. -/
theorem send_notification_spec_witness :
    (send_notification "warning" (NetResponse.status 200)
        [⟨"temperature", "warning", "High Temp", 35, "°C"⟩] none).2.length = 1
      ∧ ((send_notification "warning" (NetResponse.status 200)
          [⟨"temperature", "warning", "High Temp", 35, "°C"⟩] none).1 = true ↔
            NetResponse.status 200 = NetResponse.status 200) :=
  (send_notification_spec "warning" (NetResponse.status 200)
    [⟨"temperature", "warning", "High Temp", 35, "°C"⟩] none).2 (by decide)

/-- C5 (counterexample): `analyze_forecast` is not total on arbitrary
inputs: an entry whose `main`/`temp` key is missing raises (the code
indexes `entry["main"]["temp"]` without a guard). -/
theorem analyze_total_counterexample :
    analyze_forecast defaultThresholds
        (some ⟨some [⟨none, some 5, none, []⟩]⟩)
      = Except.error "KeyError: temp" := by decide

/-- C5 (amended): `analyze_forecast` returns the empty sequence, raising
nothing, when the forecast is absent or lacks the entry list; and it
raises nothing on any forecast whose entries are well formed (temperature
and wind samples present, every weather tag carrying its category name
and description). -/
theorem analyze_total_on_wellformed :
    ∀ th : Thresholds,
      analyze_forecast th none = Except.ok []
      ∧ analyze_forecast th (some ⟨none⟩) = Except.ok []
      ∧ ∀ entries : List ForecastEntry,
          (∀ e ∈ entries, wellFormedEntry e) →
          (analyze_forecast th (some ⟨some entries⟩)).isOk = true := by
  intro th
  refine ⟨rfl, rfl, ?_⟩
  intro entries hwf
  obtain ⟨cs, hcs⟩ := @analyzeEntries_ok th _ hwf
  show (analyzeEntries th entries).isOk = true
  rw [hcs]
  rfl

/-- C5 (witness): the amended theorem applied to a single well-formed
hot entry. -/
theorem analyze_total_on_wellformed_witness :
    (analyze_forecast defaultThresholds
        (some ⟨some [⟨some 41, some 5, none, []⟩]⟩)).isOk = true :=
  (analyze_total_on_wellformed defaultThresholds).2.2
    [⟨some 41, some 5, none, []⟩] (by simp [wellFormedEntry])

/-- C6: the temperature rule emits exactly the Extreme Heat condition
when the sample exceeds the extreme-high threshold, exactly the Extreme
Cold condition when it does not and lies below the extreme-low threshold,
never both; and the documented 41 °C example yields exactly the single
Extreme Heat condition through `analyze_forecast`. -/
theorem temperature_rule_spec :
    ∀ (th : Thresholds) (temp : ℚ),
      (temp > th.temperature_extreme_high →
        tempConditions th temp
          = [⟨"temperature", "extreme", "Extreme Heat", temp, "°C"⟩])
      ∧ (¬ temp > th.temperature_extreme_high →
          temp < th.temperature_extreme_low →
          tempConditions th temp
            = [⟨"temperature", "extreme", "Extreme Cold", temp, "°C"⟩])
      ∧ (tempConditions th temp).length ≤ 1
      ∧ analyze_forecast defaultThresholds
          (some ⟨some [⟨some 41, some 5, none, []⟩]⟩)
        = Except.ok [⟨"temperature", "extreme", "Extreme Heat", 41, "°C"⟩] := by
  intro th temp
  refine ⟨?_, ?_, ?_, ?_⟩
  · intro h; simp [tempConditions, h]
  · intro h1 h2; simp [tempConditions, h1, h2]
  · by_cases h1 : temp > th.temperature_extreme_high
    · simp [tempConditions, h1]
    · by_cases h2 : temp < th.temperature_extreme_low
      · simp [tempConditions, h1, h2]
      · simp [tempConditions, h1, h2]
  · norm_num [analyze_forecast, analyzeEntries, analyzeEntry, tempConditions,
      windConditions, rainConditions, tagsConditions, defaultThresholds]

/-- C6 (witness): the theorem applied at 41 °C against the default
40 °C threshold. -/
theorem temperature_rule_spec_witness :
    tempConditions defaultThresholds 41
      = [⟨"temperature", "extreme", "Extreme Heat", 41, "°C"⟩] :=
  (temperature_rule_spec defaultThresholds 41).1 (by norm_num [defaultThresholds])

/-- C7: the wind rule converts the m/s sample by multiplying by 3.6 and
emits exactly the High Winds condition carrying the converted value when
it exceeds the severe threshold, nothing otherwise; and the documented
25 m/s example yields exactly the single 90 km/h condition through
`analyze_forecast`. -/
theorem wind_rule_spec :
    ∀ (th : Thresholds) (speed : ℚ),
      (speed * 3.6 > th.wind_severe →
        windConditions th speed
          = [⟨"wind", "severe", "High Winds", speed * 3.6, "km/h"⟩])
      ∧ (¬ speed * 3.6 > th.wind_severe → windConditions th speed = [])
      ∧ analyze_forecast defaultThresholds
          (some ⟨some [⟨some 25, some 25, none, []⟩]⟩)
        = Except.ok [⟨"wind", "severe", "High Winds", 90, "km/h"⟩] := by
  intro th speed
  refine ⟨?_, ?_, ?_⟩
  · intro h; simp [windConditions, h]
  · intro h; simp [windConditions, h]
  · norm_num [analyze_forecast, analyzeEntries, analyzeEntry, tempConditions,
      windConditions, rainConditions, tagsConditions, defaultThresholds]

/-- C7 (witness): the theorem applied at 25 m/s against the default
75 km/h threshold. -/
theorem wind_rule_spec_witness :
    windConditions defaultThresholds 25
      = [⟨"wind", "severe", "High Winds", (25 : ℚ) * 3.6, "km/h"⟩] :=
  (wind_rule_spec defaultThresholds 25).1 (by norm_num [defaultThresholds])

/-- C8: for a weather tag with category name and description present, a
severe-weather condition of type "weather" is emitted exactly when the
lower-cased category name contains a configured keyword as a substring;
and the documented Thunderstorm example yields exactly the single
condition through `analyze_forecast`. -/
theorem weather_tag_rule_spec :
    ∀ (th : Thresholds) (tag : WeatherTag) (m d : String),
      tag.main = some m → tag.description = some d →
      (matchesSevereCondition th m = true →
        tagConditions th tag
          = Except.ok [⟨"weather", "severe", "Severe Weather: " ++ d, 0, ""⟩])
      ∧ (matchesSevereCondition th m = false → tagConditions th tag = Except.ok [])
      ∧ analyze_forecast defaultThresholds
          (some ⟨some [⟨some 25, some 5, none,
            [⟨some "Thunderstorm", some "Thunderstorm"⟩]⟩]⟩)
        = Except.ok [⟨"weather", "severe", "Severe Weather: Thunderstorm", 0, ""⟩] := by
  intro th tag m d hm hd
  refine ⟨?_, ?_, ?_⟩
  · intro hmatch; simp [tagConditions, hm, hd, hmatch]
  · intro hmatch; simp [tagConditions, hm, hd, hmatch]
  · norm_num [analyze_forecast, analyzeEntries, analyzeEntry, tempConditions,
      windConditions, rainConditions, tagsConditions, tagConditions,
      defaultThresholds]
    decide

/-- C8 (witness): the theorem applied to the Thunderstorm tag. -/
theorem weather_tag_rule_spec_witness :
    tagConditions defaultThresholds ⟨some "Thunderstorm", some "Thunderstorm"⟩
      = Except.ok
          [⟨"weather", "severe", "Severe Weather: " ++ "Thunderstorm", 0, ""⟩] :=
  (weather_tag_rule_spec defaultThresholds
    ⟨some "Thunderstorm", some "Thunderstorm"⟩ "Thunderstorm" "Thunderstorm"
    rfl rfl).1 (by decide)

/-- C9 (counterexample): the severity label is rendered by Python
`str.capitalize()`, which lower-cases the remainder of the string: on a
condition whose severity is "sEVERE" the message reads "Severe", not the
"SEVERE" the claim's remainder-unchanged rendering would give. -/
theorem format_message_capitalize_counterexample :
    format_condition_message [⟨"weather", "sEVERE", "Storm", 0, ""⟩]
      = headerPart ++ "\n" ++ glyphOther ++ "Severe Storm"
    ∧ format_condition_message [⟨"weather", "sEVERE", "Storm", 0, ""⟩]
      ≠ headerPart ++ "\n" ++ glyphOther ++ "SEVERE Storm" := by
  constructor <;> decide

/-- C9 (amended): a non-empty condition list is formatted as the fixed
header part followed by one line per condition in input order, each line
carrying the type-specific glyph prefix (temperature, wind and
precipitation with value and unit appended, any other type without) and
the severity label rendered with its first letter upper-cased and the
remainder lower-cased. -/
theorem format_message_spec :
    ∀ (c : WeatherCondition) (cs : List WeatherCondition),
      format_condition_message (c :: cs)
        = String.intercalate "\n" (headerPart :: (c :: cs).map conditionLine)
      ∧ (∀ d : WeatherCondition, d.type = "temperature" →
          conditionLine d = glyphTemperature ++ pythonCapitalize d.severity ++ " "
            ++ d.description ++ ": " ++ formatValue d.value ++ d.unit)
      ∧ (∀ d : WeatherCondition, d.type = "wind" →
          conditionLine d = glyphWind ++ pythonCapitalize d.severity ++ " "
            ++ d.description ++ ": " ++ formatValue d.value ++ d.unit)
      ∧ (∀ d : WeatherCondition, d.type = "precipitation" →
          conditionLine d = glyphPrecipitation ++ pythonCapitalize d.severity ++ " "
            ++ d.description ++ ": " ++ formatValue d.value ++ d.unit)
      ∧ (∀ d : WeatherCondition, d.type ≠ "temperature" → d.type ≠ "wind" →
          d.type ≠ "precipitation" →
          conditionLine d = glyphOther ++ pythonCapitalize d.severity ++ " "
            ++ d.description)
      ∧ (∀ (ch : Char) (rest : List Char),
          pythonCapitalize (String.mk (ch :: rest))
            = String.mk (ch.toUpper :: rest.map Char.toLower)) := by
  intro c cs
  refine ⟨?_, ?_, ?_, ?_, ?_, ?_⟩
  · simp [format_condition_message]
  · intro d h; simp [conditionLine, h]
  · intro d h; simp [conditionLine, h]
  · intro d h; simp [conditionLine, h]
  · intro d h1 h2 h3; simp [conditionLine, h1, h2, h3]
  · intro ch rest; rfl

/-- C9 (witness): the line shape applied to a concrete temperature
condition. -/
theorem format_message_spec_witness :
    conditionLine ⟨"temperature", "warning", "High Temp", 35, "°C"⟩
      = glyphTemperature ++ pythonCapitalize "warning" ++ " " ++ "High Temp"
        ++ ": " ++ formatValue 35 ++ "°C" :=
  (format_message_spec ⟨"temperature", "warning", "High Temp", 35, "°C"⟩ []).2.1
    ⟨"temperature", "warning", "High Temp", 35, "°C"⟩ rfl

/-- C10: formatting the empty condition list returns exactly the fixed
sentinel string. -/
theorem format_message_empty :
    format_condition_message [] = "No significant weather conditions detected." := rfl

end WeatherAlert
